import Mathlib

/-!
Verification of the `interact` repository's orchestration engine against its
natural-language specification.

The development shallowly embeds the relevant Python source:

* `src/reddit_cron_session.py` — the cron orchestrator (`main`, `load_json`,
  `build_comment`, `already_commented_on_post`); network and randomness are
  modelled as an oracle record `Env`, and all side effects (network calls,
  state-file writes, audit-log writes) are reified into an explicit `Effect`
  trace returned by the run function `runMain`.
* `src/comment_generator.py` — the pure postprocessing / vocabulary-check
  pipeline of `generate_comment`, with each LLM provider call abstracted as an
  oracle returning `Except String String` (the prompt strings themselves do
  not influence any control flow being verified).
* `src/app/services/reddit_client.py` — the proxy-selection loop of
  `RedditClient.initialize`, with Playwright resources (browser / context /
  page per candidate) tracked explicitly so that resource-leak properties can
  be stated.
-/

/-- A candidate post as produced by `fetch_candidates` and consumed by `main`
(`src/reddit_cron_session.py`): dict keys `id`, `subreddit`, `title`, `body`,
`url`; a missing string key is modelled as `""`, a missing `body` as `none`. -/
structure Candidate where
  id : String
  subreddit : String
  title : String
  body : Option String
  url : String
deriving DecidableEq, Repr

instance : Inhabited Candidate := ⟨⟨"", "", "", none, ""⟩⟩

/-- One per-date quota bucket: the value of `state["daily"][date]`, a dict
`{"target": int, "done": int}` (`src/reddit_cron_session.py:322`). -/
structure DayQuota where
  target : Int
  done : Int
deriving DecidableEq, Repr

/-- Result code recorded for one posting attempt
(`src/reddit_cron_session.py:394-422`): the sentinel string
`"skip_already_commented"`, the sentinel string `"dry_run"`, or the numeric
HTTP status returned by `post_comment`. -/
inductive AttemptCode
| skipAlreadyCommented
| dryRunSentinel
| http (code : Nat)
deriving DecidableEq, Repr

/-- One attempt entry appended to the `attempts` list in `main`. -/
structure Attempt where
  subreddit : String
  post_id : String
  title : String
  code : AttemptCode
deriving DecidableEq, Repr

/-- One entry of `state["sessions_log"]` (`src/reddit_cron_session.py:458-468`).
Entries loaded from disk may lack keys; a missing/None string field is
modelled as `""` (which also matches Python truthiness in the dedup guard). -/
structure PostedRecord where
  time : String
  run : String
  status : String
  subreddit : String
  post_id : String
  comment : String
  attempts : List Attempt
deriving DecidableEq, Repr

/-- The persisted state document `reddit_state.json`: `status`,
`daily` (a date-keyed dict, modelled as an association list), and
`sessions_log`. -/
structure RunState where
  status : String
  daily : List (String × DayQuota)
  sessions_log : List PostedRecord
deriving DecidableEq, Repr

/-- `load_json(path, default)` (`src/reddit_cron_session.py:24-30`): a missing
file or a file whose contents fail to parse yields the default.  The file
content is modelled as `none` exactly in those two cases. -/
def load_json (parsed : Option RunState) (default : RunState) : RunState :=
  parsed.getD default

/-- The default state passed to `load_json` in `main`
(`src/reddit_cron_session.py:319`): `{"status": "PAUSED", "sessions_log": []}`
(the `daily` dict is added by `setdefault`). -/
def defaultState : RunState :=
  { status := "PAUSED", daily := [], sessions_log := [] }

/-- Dict lookup `d[k]` on the `daily` association list. -/
def lookupDay (d : List (String × DayQuota)) (k : String) : Option DayQuota :=
  (d.find? (fun p => p.1 == k)).map (fun p => p.2)

/-- `daily.setdefault(today, fresh)` — insert only when the key is absent. -/
def setdefaultDay (d : List (String × DayQuota)) (k : String) (fresh : DayQuota) :
    List (String × DayQuota) :=
  match lookupDay d k with
  | some _ => d
  | none => d ++ [(k, fresh)]

/-- `daily[k] = v` — replace the bucket stored under key `k`. -/
def updateDay (d : List (String × DayQuota)) (k : String) (v : DayQuota) :
    List (String × DayQuota) :=
  d.map (fun p => if p.1 == k then (k, v) else p)

/-! String helpers.  The Python string operations used by the source
(`lower`, `strip`, `in`, `split`, `startswith`/`endswith`, slicing) are
modelled by structurally recursive functions over the character list, so that
all definitions evaluate inside the kernel. -/

/-- Python `s.lower()`. -/
def pyLower (s : String) : String :=
  String.mk (s.data.map Char.toLower)

/-- Python `s.strip()` — remove whitespace from both ends. -/
def pyTrim (s : String) : String :=
  String.mk (((s.data.dropWhile Char.isWhitespace).reverse.dropWhile
    Char.isWhitespace).reverse)

/-- Python `needle in haystack` on character lists. -/
def listContainsSub (hay needle : List Char) : Bool :=
  match hay with
  | [] => needle.isEmpty
  | _ :: t => needle.isPrefixOf hay || listContainsSub t needle

/-- Python `needle in haystack` on strings. -/
def containsSub (haystack needle : String) : Bool :=
  listContainsSub haystack.data needle.data

/-- Python `s.startswith(c)` for a single-character prefix. -/
def firstIs (s : String) (c : Char) : Bool :=
  match s.data with
  | [] => false
  | d :: _ => d == c

/-- Python `s.endswith(c)` for a single-character suffix. -/
def lastIs (s : String) (c : Char) : Bool :=
  match s.data.getLast? with
  | some d => d == c
  | none => false

/-- Python `s[1:-1]`. -/
def dropEnds (s : String) : String :=
  String.mk ((s.data.drop 1).dropLast)

/-- Python `text.split()` — split on whitespace runs, dropping empty pieces;
`acc` holds the current word, reversed. -/
def splitWords : List Char → List Char → List String
  | [], acc => if acc.isEmpty then [] else [String.mk acc.reverse]
  | c :: rest, acc =>
    if c.isWhitespace then
      (if acc.isEmpty then [] else [String.mk acc.reverse]) ++ splitWords rest []
    else
      splitWords rest (c :: acc)

/-- Python `s.startswith(pre)` for an arbitrary prefix. -/
def pyStartsWith (s pre : String) : Bool :=
  pre.data.isPrefixOf s.data

/-- Python `s.splitlines()` over the usual newline boundaries
(`\n`, `\r`, `\r\n`): every boundary ends the current line, and a trailing
boundary adds no empty final line; `acc` holds the current line, reversed. -/
def splitLinesAux : List Char → List Char → List String
  | [], acc => if acc.isEmpty then [] else [String.mk acc.reverse]
  | '\r' :: '\n' :: rest, acc => String.mk acc.reverse :: splitLinesAux rest []
  | c :: rest, acc =>
    if c = '\n' ∨ c = '\r' then String.mk acc.reverse :: splitLinesAux rest []
    else splitLinesAux rest (c :: acc)

/-- Python `s.splitlines()`. -/
def pySplitlines (s : String) : List String :=
  splitLinesAux s.data []

/-- Python `s.split("=", 1)[1]` — everything after the first `=`
(`""` when there is none, unreachable on the guarded call site, where the
line is known to start with `NVIDIA_API_KEY=`). -/
def pySplitEq1 : List Char → List Char
  | [] => []
  | c :: rest => if c = '=' then rest else pySplitEq1 rest

/-- Template returned by `build_comment` when the LLM path failed and the
lowered title contains `"tantrum"` (`src/reddit_cron_session.py:228`). -/
def tantrumTemplate : String :=
  "that sounds tough. naming the emotion and keeping responses short and calm usually helps over time."

/-- Template for titles containing `"sleep"` (`src/reddit_cron_session.py:230`). -/
def sleepTemplate : String :=
  "sleep phases are hard. a predictable routine usually matters more than any single trick."

/-- Generic fallback template (`src/reddit_cron_session.py:231`). -/
def genericTemplate : String :=
  "that sounds really tough. consistency and calm usually help, even when it feels slow."

/-- The `try/except` portion of `build_comment`
(`src/reddit_cron_session.py:220-231`).  The `generate_comment` call
(together with anything the surrounding `try` catches — import errors,
missing keys, provider failures) is abstracted as
`llmResult : Option String` — `some s` when the call returned `s`, `none`
when it raised.  On `none` the function falls back to a fixed template
chosen by substring tests on the lowered title. -/
def build_comment_try (title : String) (_body : Option String) (_subreddit : String)
    (llmResult : Option String) : String :=
  match llmResult with
  | some s => s
  | none =>
    let t := pyLower title
    if containsSub t "tantrum" then tantrumTemplate
    else if containsSub t "sleep" then sleepTemplate
    else genericTemplate

/-- The `.env`-scanning loop of `build_comment`'s preamble
(`src/reddit_cron_session.py:210-217`): the first line of the file contents
starting with `NVIDIA_API_KEY=` yields its value — the text after the first
`=`, stripped, with one surrounding pair of single or double quotes removed;
`none` when no line matches (the loop then falls through without setting the
variable).  The loop itself cannot raise, and its only effect is the
`os.environ` assignment. -/
def parse_env_key (contents : String) : Option String :=
  (pySplitlines contents).findSome? (fun line =>
    if pyStartsWith line "NVIDIA_API_KEY=" then
      let val := pyTrim (String.mk (pySplitEq1 line.data))
      let val :=
        if (firstIs val '\'' && lastIs val '\'') || (firstIs val '"' && lastIs val '"') then
          dropEnds val
        else val
      some val
    else none)

/-- `build_comment(title, body, subreddit)` (`src/reddit_cron_session.py:202-231`),
including the `.env`-loading preamble (lines 206-217), which runs *before*
the `try/except`: when `NVIDIA_API_KEY` is not already set
(`keyAlreadySet = false`) and the `.env` file exists, the file is read —
`envRead` is the outcome of `env_file.read_text()`, and an `Except.error`
there propagates past `build_comment`'s boundary (its only raise path).  On
a successful read the key is parsed into the process environment via
`parse_env_key` (whose downstream influence on the LLM call is part of the
`llmResult` oracle).  The `try` body then produces the comment string via
`build_comment_try`. -/
def build_comment (title : String) (body : Option String) (subreddit : String)
    (keyAlreadySet : Bool) (envFileExists : Bool) (envRead : Except Unit String)
    (llmResult : Option String) : Except Unit String :=
  if keyAlreadySet = false ∧ envFileExists = true then
    match envRead with
    | Except.error e => Except.error e
    | Except.ok contents =>
      let _envKey := parse_env_key contents
      Except.ok (build_comment_try title body subreddit llmResult)
  else
    Except.ok (build_comment_try title body subreddit llmResult)

/-! ### `src/comment_generator.py` — pure pipeline of `generate_comment` -/

/-- `AI_WORDS_TIER1` (`src/comment_generator.py:23-29`). -/
def AI_WORDS_TIER1 : List String :=
  ["delve", "crucial", "robust", "seamless", "multifaceted",
   "underscore", "underscores", "testament", "testaments", "tapestry",
   "intricate", "realm", "realms", "eloquent", "eloquently", "bustling",
   "vibrant", "vibrancy", "leverage", "leveraging", "synergy", "synergies",
   "holistic", "holistically", "landscape", "landscapes", "ecosystem", "ecosystems"]

/-- `AI_WORDS_TIER2` (`src/comment_generator.py:31-37`). -/
def AI_WORDS_TIER2 : List String :=
  ["navigate", "navigation", "navigating", "comprehensive", "comprehensively",
   "meticulous", "meticulously", "paramount", "imperative", "imperatives",
   "dynamic", "dynamics", "inherent", "inherently", "notably",
   "pivotal", "integral", "integrally", "foster", "fosters", "fostering",
   "cultivate", "cultivates", "cultivating", "cultivation"]

/-- Python `word.strip('.,!?;:"()[]')` — remove those characters from both
ends of the word. -/
def stripPunct (w : String) : String :=
  let punct : List Char := ['.', ',', '!', '?', ';', ':', '"', '(', ')', '[', ']']
  let isP : Char → Bool := fun c => punct.contains c
  String.mk (((w.toList.dropWhile isP).reverse.dropWhile isP).reverse)

/-- `check_ai_vocabulary(text)` (`src/comment_generator.py:40-49`):
split the lowered text on whitespace (Python `str.split()` drops empty
pieces), strip punctuation, and collect tier-tagged hits. -/
def check_ai_vocabulary (text : String) : List String :=
  (splitWords (pyLower text).data []).filterMap
    (fun word =>
      let clean := stripPunct word
      if AI_WORDS_TIER1.contains clean then some ("TIER1: " ++ clean)
      else if AI_WORDS_TIER2.contains clean then some ("TIER2: " ++ clean)
      else none)

/-- `_postprocess(text)` (`src/comment_generator.py:97-103`): strip
whitespace, lowercase, and remove one matching pair of surrounding double or
single quotes. -/
def postprocessText (text : String) : String :=
  let t := pyLower (pyTrim text)
  let t := if firstIs t '"' && lastIs t '"' then dropEnds t else t
  let t := if firstIs t '\'' && lastIs t '\'' then dropEnds t else t
  t

/-- `generate_comment(title, body, subreddit, model)`
(`src/comment_generator.py:161-173`).  The provider call chain
(`_call_one` / `_call_cascade`, including prompt construction, whose text
affects no control flow here) is abstracted as the oracle `call`:
`call false` is the call on the initial prompt, `call true` the call on the
retry prompt; `Except.error` marks a raised exception.  The function
postprocesses the first answer, and when AI-vocabulary hits are found calls
once more with the retry prompt and postprocesses that answer; any provider
exception propagates (the Python docstring: "Raises on failure"). -/
def generate_comment (call : Bool → Except String String) : Except String String :=
  match call false with
  | Except.error e => Except.error e
  | Except.ok raw =>
    let comment := postprocessText raw
    let ai_words := check_ai_vocabulary comment
    if ai_words.isEmpty then Except.ok comment
    else
      match call true with
      | Except.error e => Except.error e
      | Except.ok raw2 => Except.ok (postprocessText raw2)

/-! ### `already_commented_on_post` — the live dedup guard -/

/-- One element of the JSON array returned by the replies fetch; only the
`author` key is inspected by the guard. -/
structure CommentJson where
  author : Option String
deriving DecidableEq, Repr

/-- Outcome of the `requests.get` in `already_commented_on_post`:
the call (or anything inside the `try`) raised, or a response arrived with a
status code and a body that either parses to a comment list or does not
(`r.json()` raising is modelled as `body = none`). -/
inductive FetchOutcome
| exn
| resp (status : Nat) (body : Option (List CommentJson))
deriving DecidableEq, Repr

/-- `already_commented_on_post(sub, post_id)`
(`src/reddit_cron_session.py:240-252`): non-200 status → `False`; any raised
exception (network or JSON parse) is swallowed → `False`; otherwise scan the
parsed comments for `author == "AlfredCali"`. -/
def already_commented_on_post (f : FetchOutcome) : Bool :=
  match f with
  | FetchOutcome.exn => false
  | FetchOutcome.resp status body =>
    if status != 200 then false
    else
      match body with
      | none => false
      | some comments => comments.any (fun c => c.author == some "AlfredCali")

/-! ### `src/app/services/reddit_client.py` — proxy selection in `initialize`

Playwright resources are tracked explicitly: each proxy candidate is tagged by
its index in the candidate list, and launching a browser / creating a context
/ opening a page registers an open resource, while `close()` removes it
(closing an already-closed resource is a no-op, as in Playwright).  The page
opened inside `_is_proxy_blocked` is always closed by its `finally:` block, so
it is not tracked; the page opened at the end of `initialize`
(`self._page = await self._context.new_page()`) is. -/

/-- Kind of a Playwright resource held by the client. -/
inductive ResKind
| browser
| context
| page
deriving DecidableEq, Repr

/-- Outcome of processing one proxy candidate inside `initialize`'s loop
(`src/app/services/reddit_client.py:101-121`):

* `launchRaises` — `chromium.launch` raised: nothing was opened;
* `newContextRaises` — launch succeeded, `browser.new_context` raised: the
  browser is open but `self._browser` was *not* yet reassigned
  (`_build_context` assigns it only after `new_context` returns);
* `probeRaises` — context built (`self._browser` now points at this
  candidate's browser), but `context.new_page()` inside `_is_proxy_blocked`
  raised;
* `blocked` — context built, probe classified the candidate as blocked
  (a `goto`/`title` failure inside the probe is caught there and also
  reported as blocked);
* `works` — context built and the probe passed. -/
inductive ProxyStep
| launchRaises
| newContextRaises
| probeRaises
| blocked
| works
deriving DecidableEq, Repr

/-- The client's resource/attribute state: the list of currently open
resources (candidate index × kind), and the `self._browser`, `self._context`,
`self._page` attributes (each an `Option` candidate index). -/
structure ClientState where
  openRes : List (Nat × ResKind)
  browserField : Option Nat
  contextField : Option Nat
  pageField : Option Nat
deriving DecidableEq, Repr

/-- `close()` on a resource: remove it from the open set if present
(no-op when already closed). -/
def closeRes (open_ : List (Nat × ResKind)) (r : Nat × ResKind) : List (Nat × ResKind) :=
  open_.erase r

/-- The `except` handler of `initialize`'s loop
(`src/app/services/reddit_client.py:114-120`): close `self._context` if set
and `self._browser` if set (note: these are the *attributes*, not the local
variables of the failed attempt). -/
def closeOnExn (cs : ClientState) : ClientState :=
  let o :=
    match cs.contextField with
    | some j => closeRes cs.openRes (j, ResKind.context)
    | none => cs.openRes
  let o :=
    match cs.browserField with
    | some j => closeRes o (j, ResKind.browser)
    | none => o
  { cs with openRes := o }

/-- The candidate loop of `initialize`
(`src/app/services/reddit_client.py:100-121`), with `i` the index of the next
candidate.  Returns the client state after the loop together with the index of
the selected (first working) candidate, if any. -/
def selectLoop : List ProxyStep → Nat → ClientState → ClientState × Option Nat
| [], _, cs => (cs, none)
| step :: rest, i, cs =>
  match step with
  | ProxyStep.launchRaises =>
    selectLoop rest (i + 1) (closeOnExn cs)
  | ProxyStep.newContextRaises =>
    let cs := { cs with openRes := (i, ResKind.browser) :: cs.openRes }
    selectLoop rest (i + 1) (closeOnExn cs)
  | ProxyStep.probeRaises =>
    let cs := { cs with
      openRes := (i, ResKind.context) :: (i, ResKind.browser) :: cs.openRes,
      browserField := some i }
    selectLoop rest (i + 1) (closeOnExn cs)
  | ProxyStep.blocked =>
    let cs := { cs with
      openRes := (i, ResKind.context) :: (i, ResKind.browser) :: cs.openRes,
      browserField := some i }
    -- `await context.close()` then `if self._browser: await self._browser.close()`
    let o := closeRes (closeRes cs.openRes (i, ResKind.context)) (i, ResKind.browser)
    selectLoop rest (i + 1) { cs with openRes := o }
  | ProxyStep.works =>
    ({ cs with
       openRes := (i, ResKind.context) :: (i, ResKind.browser) :: cs.openRes,
       browserField := some i }, some i)

/-- `RedditClient.initialize(cookies)` (`src/app/services/reddit_client.py:93-169`):
run the candidate loop over the candidate list capped at
`REDDIT_PROXY_MAX_ATTEMPTS` (`candidates[:max_attempts]`); when no candidate
is selected, raise (`RuntimeError("No working proxy found ...")`, modelled as
`some "NoWorkingEgress"` in the second component) leaving `self._context` and
`self._page` unset; otherwise set `self._context` to the selected context, add
cookies (each failure swallowed — no resource effect), and open the page. -/
def clientInitialize (maxAttempts : Nat) (steps : List ProxyStep) :
    ClientState × Option String :=
  let start : ClientState := ⟨[], none, none, none⟩
  let res := selectLoop (steps.take maxAttempts) 0 start
  match res.2 with
  | none => (res.1, some "NoWorkingEgress")
  | some i =>
    ({ res.1 with
       contextField := some i,
       pageField := some i,
       openRes := (i, ResKind.page) :: res.1.openRes }, none)

/-! ### `main` of `src/reddit_cron_session.py` -/

/-- The environment oracle for one invocation of `main`: today's date and
timestamp, the value drawn by `random.randint(4, 8)` for a fresh quota bucket,
the outcomes of `ensure_api_up` and `login`, the list returned by
`fetch_candidates`, the permutation applied by `random.shuffle` to the target
pool, and per-target outcomes of `already_commented_on_post`,
`generate_comment` (`none` = raised, `some s` = returned `s`),
`post_comment`'s status code, and `verify_comment`. -/
structure Env where
  today : String
  now : String
  dayTarget : Int
  apiUp : Bool
  loginOk : Bool
  loginWhy : String
  candidates : List Candidate
  shuffle : List Candidate → List Candidate
  alreadyCommented : String → String → Bool
  llm : String → Option String → String → Option String
  postCode : String → String → Nat
  verify : String → String → Bool

/-- One observable side effect of a run, in program order: the network calls
issued by `main` and its helpers, the `save_json` write of the state file, and
the `write_log` audit-file write. -/
inductive Effect
| netApiCheck
| netLogin
| netFetchCandidates
| netObserve (subreddit post_id : String)
| netDedupCheck (subreddit post_id : String)
| netSubmit (subreddit post_id text : String)
| netVerify (subreddit post_id : String)
| writeState (s : RunState)
| writeLog (target : Candidate) (comment : String) (status reason : String)
deriving DecidableEq, Repr

/-- `True` exactly on the `save_json` effect. -/
def Effect.isWriteState : Effect → Bool
| Effect.writeState _ => true
| _ => false

/-- Projection selecting `save_json` writes from an effect. -/
def stateProj : Effect → Option RunState
| Effect.writeState s => some s
| _ => none

/-- Projection selecting audit-log writes (target, comment) from an effect. -/
def logProj : Effect → Option (Candidate × String)
| Effect.writeLog target comment _ _ => some (target, comment)
| _ => none

/-- Projection selecting `post_comment` submissions from an effect. -/
def submitProj : Effect → Option (String × String × String)
| Effect.netSubmit sub pid text => some (sub, pid, text)
| _ => none

/-- The state-file writes contained in an effect trace; `main` performs at
most one, so the last one (if any) is the file content after the run. -/
def writtenState (effs : List Effect) : Option RunState :=
  (effs.filterMap stateProj).getLast?

/-- The `(target, comment)` pairs written to audit log files by a trace. -/
def loggedOf (effs : List Effect) : List (Candidate × String) :=
  effs.filterMap logProj

/-- The submit calls (`post_comment`) contained in an effect trace. -/
def submitsOf (effs : List Effect) : List (String × String × String) :=
  effs.filterMap submitProj

/-- Python truthiness test used by the dedup-ledger comprehension:
`x.get("subreddit") and x.get("post_id")` — both present and non-empty. -/
def realRecord (r : PostedRecord) : Bool :=
  r.subreddit != "" && r.post_id != ""

/-- The `f"{sub}:{post_id}"` key string used for dedup. -/
def recordKey (r : PostedRecord) : String :=
  r.subreddit ++ ":" ++ r.post_id

/-- `commented_keys` (`src/reddit_cron_session.py:368-372`): the key of every
persisted record whose `subreddit` and `post_id` are both truthy. -/
def ledgerKeys (log : List PostedRecord) : List String :=
  (log.filter realRecord).map recordKey

/-- Two session records with distinct (subreddit, post_id) pairs. -/
def distinctPair (a b : PostedRecord) : Prop :=
  ¬(a.subreddit = b.subreddit ∧ a.post_id = b.post_id)

/-- The candidate-side key `f"{p.get('subreddit')}:{p.get('id')}"`. -/
def candidateKey (p : Candidate) : String :=
  p.subreddit ++ ":" ++ p.id

/-- The target pool (`src/reddit_cron_session.py:375-379`): candidates after
the first, minus any with the observed post's id and any whose key is already
in the dedup ledger.  (`random.shuffle` is applied by the caller.) -/
def selectPool (observed : Candidate) (rest : List Candidate)
    (log : List PostedRecord) : List Candidate :=
  rest.filter (fun p =>
    p.id != observed.id && !((ledgerKeys log).contains (candidateKey p)))

/-- The comment composed for a candidate:
`build_comment(target.get("title", ""), target.get("body"), target.get("subreddit"))`
with the `generate_comment` outcome drawn from the oracle.  The orchestrator
model covers runs in which composition returns a value, so the call is the
`try/except` body `build_comment_try`; the full boundary including the
`.env` preamble — whose read failure is an unhandled exception that kills
`main` before any state mutation — is `build_comment`. -/
def composeFor (e : Env) (c : Candidate) : String :=
  build_comment_try c.title c.body c.subreddit (e.llm c.title c.body c.subreddit)

/-- Result of the per-target attempt loop: the `success` triple
(target, comment, verified — `verified = true` stands for the truthy
`"dry_run"` sentinel in dry-run mode), the recorded attempts, and the effect
trace of the loop. -/
structure LoopResult where
  success : Option (Candidate × String × Bool)
  attempts : List Attempt
  effects : List Effect
deriving Repr

/-- The `for target in pool[:max_post_attempts]` loop
(`src/reddit_cron_session.py:388-434`): live dedup guard, comment
composition, dry-run short circuit, submit, inter-attempt backoff on
non-200, verification on 200. -/
def attemptLoop (dryRun : Bool) (e : Env) : List Candidate → LoopResult
| [] => ⟨none, [], []⟩
| target :: rest =>
  let sub := target.subreddit
  let pid := target.id
  if e.alreadyCommented sub pid then
    let r := attemptLoop dryRun e rest
    ⟨r.success,
     ⟨sub, pid, target.title, AttemptCode.skipAlreadyCommented⟩ :: r.attempts,
     Effect.netDedupCheck sub pid :: r.effects⟩
  else
    let comment := composeFor e target
    if dryRun then
      ⟨some (target, comment, true),
       [⟨sub, pid, target.title, AttemptCode.dryRunSentinel⟩],
       [Effect.netDedupCheck sub pid]⟩
    else
      let code := e.postCode sub pid
      if code ≠ 200 then
        let r := attemptLoop dryRun e rest
        ⟨r.success,
         ⟨sub, pid, target.title, AttemptCode.http code⟩ :: r.attempts,
         Effect.netDedupCheck sub pid :: Effect.netSubmit sub pid comment :: r.effects⟩
      else
        ⟨some (target, comment, e.verify sub pid),
         [⟨sub, pid, target.title, AttemptCode.http 200⟩],
         [Effect.netDedupCheck sub pid, Effect.netSubmit sub pid comment,
          Effect.netVerify sub pid]⟩

/-- Everything `main` produces that the properties below inspect: the
`status` and `reason` fields of the printed JSON result, the recorded
attempts, the in-memory state at the end of the run, and the effect trace. -/
structure RunResult where
  status : String
  reason : String
  attempts : List Attempt
  stateAfter : RunState
  effects : List Effect
deriving Repr

/-- The fallback target used on the all-attempts-failed path
(`src/reddit_cron_session.py:437`): `pool[0] if pool else
{"subreddit": "?", "id": "?", "title": "?"}`. -/
def fallbackDefault : Candidate :=
  { id := "?", subreddit := "?", title := "?", body := none, url := "" }

/-- `main()` (`src/reddit_cron_session.py:306-501`) for one invocation, given
the already-loaded state (`load_json` composes in front of this).  Faithful
control flow, in source order: `daily`/`day` `setdefault`; the two non-dry-run
gates (`status != "active"` then `done >= target`); jitter (no effect);
`ensure_api_up`; `login`; `fetch_candidates` with the `< 2` check; the
observe fetch (failures swallowed) and dwell; pool construction, shuffle, and
the `max_post_attempts == 0` skip; the attempt loop; then either the
all-failed error path (fallback comment composed, written only to the audit
log) or the success path (dry-run: no mutation; otherwise increment `done`,
append the session record, `save_json`, `write_log`). -/
def runMain (dryRun : Bool) (label : String) (e : Env) (s0 : RunState) : RunResult :=
  let fresh : DayQuota := { target := e.dayTarget, done := 0 }
  let daily1 := setdefaultDay s0.daily e.today fresh
  let day := (lookupDay daily1 e.today).getD fresh
  let s : RunState := { s0 with daily := daily1 }
  if dryRun = false ∧ s.status ≠ "active" then
    ⟨"skipped", "state_not_active", [], s, []⟩
  else if dryRun = false ∧ day.target ≤ day.done then
    ⟨"skipped", "quota_reached", [], s, []⟩
  else if e.apiUp = false then
    ⟨"error", "api_down", [], s, [Effect.netApiCheck]⟩
  else if e.loginOk = false then
    ⟨"error", e.loginWhy, [], s, [Effect.netApiCheck, Effect.netLogin]⟩
  else if e.candidates.length < 2 then
    ⟨"error", "not_enough_posts", [], s,
     [Effect.netApiCheck, Effect.netLogin, Effect.netFetchCandidates]⟩
  else
    match e.candidates with
    | [] =>
      ⟨"error", "not_enough_posts", [], s,
       [Effect.netApiCheck, Effect.netLogin, Effect.netFetchCandidates]⟩
    | observed :: rest =>
      let base := [Effect.netApiCheck, Effect.netLogin, Effect.netFetchCandidates,
                   Effect.netObserve observed.subreddit observed.id]
      let pool := e.shuffle (selectPool observed rest s.sessions_log)
      let maxPost := min 3 pool.length
      if maxPost = 0 then
        ⟨"skipped", "no_new_posts_available", [], s, base⟩
      else
        let lr := attemptLoop dryRun e (pool.take maxPost)
        match lr.success with
        | none =>
          let fallback := pool.headD fallbackDefault
          let fbComment := composeFor e fallback
          let reason := "post_failed_after_" ++ toString maxPost ++ "_attempts"
          ⟨"error", reason, lr.attempts, s,
           base ++ lr.effects ++ [Effect.writeLog fallback fbComment "error" reason]⟩
        | some (target, comment, verified) =>
          if dryRun then
            ⟨"dry_run", "done", lr.attempts, s,
             base ++ lr.effects ++ [Effect.writeLog target comment "dry_run" "done"]⟩
          else
            let outcome := if verified then "ok" else "posted_unverified"
            let newRec : PostedRecord :=
              { time := e.now, run := label, status := outcome,
                subreddit := target.subreddit, post_id := target.id,
                comment := comment, attempts := lr.attempts }
            let day2 : DayQuota := { target := day.target, done := day.done + 1 }
            let s2 : RunState :=
              { status := s.status,
                daily := updateDay daily1 e.today day2,
                sessions_log := s.sessions_log ++ [newRec] }
            ⟨outcome, "done", lr.attempts, s2,
             base ++ lr.effects ++
               [Effect.writeState s2, Effect.writeLog target comment outcome "done"]⟩

/-- One scheduled invocation: its dry-run flag, run label, and environment. -/
structure RunInput where
  dryRun : Bool
  label : String
  env : Env

/-- A sequence of non-overlapping runs sharing the state file: each run loads
the current file content, and the file content afterwards is the state it
wrote via `save_json`, if any, else unchanged. -/
def runChain : List RunInput → RunState → RunState
| [], s => s
| inp :: rest, s =>
  runChain rest ((writtenState (runMain inp.dryRun inp.label inp.env s).effects).getD s)

/-- The environment hypotheses every real run satisfies: `fetch_candidates`
only emits candidates whose subreddit is drawn from the non-empty allow-set
and whose id is a non-empty alphanumeric string
(`src/reddit_cron_session.py:161-172`), and `random.shuffle` permutes. -/
def ValidEnv (e : Env) : Prop :=
  (∀ c ∈ e.candidates, c.subreddit ≠ "" ∧ c.id ≠ "") ∧
  (∀ l : List Candidate, List.Perm (e.shuffle l) l)


/-- The fresh quota bucket drawn for a new date:
`{"target": random.randint(4, 8), "done": 0}`. -/
def freshQuota (e : Env) : DayQuota :=
  { target := e.dayTarget, done := 0 }

/-- The `daily` dict after the two `setdefault` calls at the top of `main`. -/
def daily1Of (e : Env) (s0 : RunState) : List (String × DayQuota) :=
  setdefaultDay s0.daily e.today (freshQuota e)

/-- Today's quota bucket `day` as seen by `main` after `setdefault`. -/
def dayOf (e : Env) (s0 : RunState) : DayQuota :=
  (lookupDay (daily1Of e s0) e.today).getD (freshQuota e)


/-! ### Concrete fixtures used by witnesses and counterexamples -/

deriving instance DecidableEq for Except

/-- A concrete valid candidate (r/Parenting). -/
def candA : Candidate :=
  { id := "abc1", subreddit := "Parenting", title := "help with tantrum",
    body := none, url := "https://www.reddit.com/r/Parenting/comments/abc1/x/" }

/-- A concrete valid candidate (r/toddlers). -/
def candB : Candidate :=
  { id := "def2", subreddit := "toddlers", title := "sleep regression",
    body := some "suddenly waking at 2am",
    url := "https://www.reddit.com/r/toddlers/comments/def2/y/" }

/-- A concrete environment: healthy API, successful login, two candidates,
identity shuffle, clean dedup guard, LLM returning a fixed comment,
submissions succeeding, verification succeeding. -/
def envA : Env :=
  { today := "2026-10-12", now := "2026-10-12T09:00:00+00:00", dayTarget := 5,
    apiUp := true, loginOk := true, loginWhy := "ok",
    candidates := [candA, candB],
    shuffle := fun l => l,
    alreadyCommented := fun _ _ => false,
    llm := fun _ _ _ => some "that sounds rough. a calm routine usually helps.",
    postCode := fun _ _ => 200,
    verify := fun _ _ => true }

/-- Like `envA` but every submission returns HTTP 500. -/
def envFail : Env :=
  { envA with postCode := fun _ _ => 500 }

/-- A concrete active state with empty ledger and no quota bucket. -/
def stateActive : RunState :=
  { status := "active", daily := [], sessions_log := [] }

/-- An active state whose ledger already contains `candB`'s
(subreddit, post id) pair. -/
def stateLedgerB : RunState :=
  { status := "active", daily := [],
    sessions_log := [{ time := "2026-10-10T09:00:00+00:00", run := "old",
                       status := "ok", subreddit := "toddlers", post_id := "def2",
                       comment := "older comment", attempts := [] }] }


/-- An active state whose bucket for `envA.today` is already full. -/
def stateQuotaFull : RunState :=
  { status := "active", daily := [("2026-10-12", { target := 4, done := 4 })],
    sessions_log := [] }

/-! ### Shared lemmas -/

/-- The attempt loop never performs a `save_json` write: no `writeState`
effect is reachable from inside the `for target in pool[...]` loop. -/
theorem attemptLoop_stateProj_free (dryRun : Bool) (e : Env) :
    ∀ l : List Candidate, (attemptLoop dryRun e l).effects.filterMap stateProj = [] := by
  intro l
  induction l with
  | nil => rfl
  | cons t rest ih =>
    by_cases h1 : e.alreadyCommented t.subreddit t.id = true <;>
      by_cases h3 : e.postCode t.subreddit t.id = 200 <;>
      rcases Bool.eq_false_or_eq_true dryRun with h2 | h2 <;> subst h2 <;>
      simp [attemptLoop, h1, h3, stateProj, ih]

/-- The attempt loop writes no audit-log file. -/
theorem attemptLoop_logProj_free (dryRun : Bool) (e : Env) :
    ∀ l : List Candidate, (attemptLoop dryRun e l).effects.filterMap logProj = [] := by
  intro l
  induction l with
  | nil => rfl
  | cons t rest ih =>
    by_cases h1 : e.alreadyCommented t.subreddit t.id = true <;>
      by_cases h3 : e.postCode t.subreddit t.id = 200 <;>
      rcases Bool.eq_false_or_eq_true dryRun with h2 | h2 <;> subst h2 <;>
      simp [attemptLoop, h1, h3, logProj, ih]

/-- A successful attempt's target is drawn from the candidate list the loop
was given. -/
theorem attemptLoop_success_mem (dryRun : Bool) (e : Env) :
    ∀ (l : List Candidate) (t : Candidate) (c : String) (v : Bool),
      (attemptLoop dryRun e l).success = some (t, c, v) → t ∈ l := by
  intro l
  induction l with
  | nil => intro t c v h; simp [attemptLoop] at h
  | cons hd rest ih =>
    intro t c v h
    by_cases h1 : e.alreadyCommented hd.subreddit hd.id = true <;>
      by_cases h3 : e.postCode hd.subreddit hd.id = 200 <;>
      rcases Bool.eq_false_or_eq_true dryRun with h2 | h2 <;> subst h2 <;>
      simp [attemptLoop, h1, h3] at h <;>
      first
        | exact List.mem_cons_of_mem hd (ih t c v h)
        | (obtain ⟨h', -⟩ := h
           exact h' ▸ List.mem_cons_self hd rest)

/-- During the candidate loop, `self._context` and `self._page` are never
assigned: they keep whatever value they had when the loop started. -/
theorem selectLoop_fields_invariant :
    ∀ (steps : List ProxyStep) (i : Nat) (cs : ClientState),
      (selectLoop steps i cs).1.contextField = cs.contextField ∧
      (selectLoop steps i cs).1.pageField = cs.pageField := by
  intro steps
  induction steps with
  | nil => intro i cs; exact ⟨rfl, rfl⟩
  | cons step rest ih =>
    intro i cs
    cases step <;>
      first
        | exact ih (i + 1) _
        | simp [selectLoop, closeOnExn, ih]

/-- If no candidate in the list works, the loop selects nothing. -/
theorem selectLoop_none_of_all_fail :
    ∀ (steps : List ProxyStep) (i : Nat) (cs : ClientState),
      (∀ s ∈ steps, s ≠ ProxyStep.works) →
      (selectLoop steps i cs).2 = none := by
  intro steps
  induction steps with
  | nil => intro i cs _; rfl
  | cons step rest ih =>
    intro i cs h
    have hstep := h step (List.mem_cons_self step rest)
    have hrest : ∀ s ∈ rest, s ≠ ProxyStep.works :=
      fun s hs => h s (List.mem_cons_of_mem step hs)
    cases step <;> simp only [selectLoop] <;>
      first
        | exact ih (i + 1) _ hrest
        | exact absurd rfl hstep

/-! ### Claims -/

/-- **C5.** If every proxy candidate (capped at the configured maximum
attempt count) is classified blocked or fails its probe — i.e. no candidate
in the capped list works — then `RedditClient.initialize` raises the distinct
no-working-egress error, `self._context` remains unset, and `self._page` is
never produced. -/
theorem initialize_no_working_egress
    (maxAttempts : Nat) (steps : List ProxyStep)
    (h : ∀ s ∈ steps.take maxAttempts, s ≠ ProxyStep.works) :
    (clientInitialize maxAttempts steps).2 = some "NoWorkingEgress" ∧
    (clientInitialize maxAttempts steps).1.contextField = none ∧
    (clientInitialize maxAttempts steps).1.pageField = none := by
  have hsel := selectLoop_none_of_all_fail (steps.take maxAttempts) 0 ⟨[], none, none, none⟩ h
  have hfields := selectLoop_fields_invariant (steps.take maxAttempts) 0 ⟨[], none, none, none⟩
  simp only [clientInitialize]
  rw [hsel]
  exact ⟨rfl, hfields.1, hfields.2⟩

/-- Witness for C5 at a concrete candidate list: one blocked candidate, one
whose launch raises, one whose context creation raises, one whose probe
raises — no session, no context, no page. -/
theorem initialize_no_working_egress_witness :
    (clientInitialize 8 [ProxyStep.blocked, ProxyStep.launchRaises,
        ProxyStep.newContextRaises, ProxyStep.probeRaises]).2 = some "NoWorkingEgress" ∧
    (clientInitialize 8 [ProxyStep.blocked, ProxyStep.launchRaises,
        ProxyStep.newContextRaises, ProxyStep.probeRaises]).1.contextField = none ∧
    (clientInitialize 8 [ProxyStep.blocked, ProxyStep.launchRaises,
        ProxyStep.newContextRaises, ProxyStep.probeRaises]).1.pageField = none :=
  initialize_no_working_egress 8 _ (by decide)

/-- **C8** (code bug).  The claim says every rejected candidate's
browser/context resources are closed before the next candidate is tried.  The
code violates this: when `browser.new_context` raises, `_build_context` has
not yet reassigned `self._browser`, so the `except` handler closes a stale
(or unset) browser and the just-launched browser leaks; when
`context.new_page` raises inside the probe, the handler closes the browser
but not the freshly built context (`self._context` is still unset).  Both
leaks are exhibited here on single-candidate lists: after `initialize`
finishes (with no working proxy), the rejected candidate's resource is still
open. -/
theorem initialize_rejected_candidate_leaks :
    (clientInitialize 8 [ProxyStep.newContextRaises]).1.openRes
        = [(0, ResKind.browser)] ∧
    (clientInitialize 8 [ProxyStep.probeRaises]).1.openRes
        = [(0, ResKind.context)] ∧
    (clientInitialize 8 [ProxyStep.newContextRaises]).2 = some "NoWorkingEgress" := by
  decide

/-- **C9 counterexample.**  The claim asserts composing a comment always
returns a *non-empty* string and never raises past its boundary.  Both parts
fail: (1) when the LLM call succeeds and returns a string that postprocesses
to empty (e.g. a quoted empty string, which `generate_comment` happily
produces), `build_comment` returns it unchanged — the empty string; (2) when
`NVIDIA_API_KEY` is not yet set, the `.env` file exists, and reading it
fails, the `env_file.read_text()` of the preamble — which runs before the
`try/except` — raises past `build_comment`'s boundary. -/
theorem build_comment_empty_or_raises :
    generate_comment (fun _ => Except.ok "\"\"") = Except.ok "" ∧
    build_comment "my toddler keeps hitting" none "Parenting" true false
      (Except.ok "") (some "") = Except.ok "" ∧
    build_comment "my toddler keeps hitting" none "Parenting" false true
      (Except.error ()) (some "anything") = Except.error () := by
  refine ⟨by decide, rfl, rfl⟩

/-- **C9 (amended).**  The comment-composition boundary is total except for
its `.env`-loading preamble: whenever `NVIDIA_API_KEY` is already set, or the
`.env` file is absent, or its read succeeds, `build_comment` returns a string
and never raises — on an LLM-path failure the result is one of the three
fixed templates, which are all non-empty, and on LLM success the result is
exactly the LLM's string, which may be empty.  The sole raise path is
`env_file.read_text()` (unset key, file present, read fails), which precedes
the `try/except`. -/
theorem build_comment_total_with_fallback
    (title : String) (body : Option String) (sub : String)
    (keySet envExists : Bool) (envRead : Except Unit String)
    (llmResult : Option String)
    (hsafe : keySet = true ∨ envExists = false ∨ ∃ s, envRead = Except.ok s) :
    build_comment title body sub keySet envExists envRead llmResult =
      Except.ok (build_comment_try title body sub llmResult) ∧
    (llmResult = none →
      build_comment_try title body sub llmResult ≠ "" ∧
      build_comment_try title body sub llmResult
        ∈ [tantrumTemplate, sleepTemplate, genericTemplate]) ∧
    (∀ s, llmResult = some s →
      build_comment title body sub keySet envExists envRead llmResult =
        Except.ok s) := by
  have hok : build_comment title body sub keySet envExists envRead llmResult =
      Except.ok (build_comment_try title body sub llmResult) := by
    unfold build_comment
    by_cases hc : keySet = false ∧ envExists = true
    · rw [if_pos hc]
      rcases hsafe with h | h | ⟨s, hs⟩
      · rw [h] at hc
        exact absurd hc.1 (by simp)
      · rw [h] at hc
        exact absurd hc.2 (by simp)
      · rw [hs]
    · rw [if_neg hc]
  refine ⟨hok, ?_, ?_⟩
  · rintro rfl
    constructor
    · simp only [build_comment_try]
      split
      · decide
      · split
        · decide
        · decide
    · simp only [build_comment_try]
      split
      · simp
      · split
        · simp
        · simp
  · rintro s rfl
    rw [hok]
    rfl

/-- Witness for C9: with the key already set and a failing LLM path the
result is the non-empty fallback template; with the key unset but a readable
`.env`, a successful LLM path returns its text verbatim. -/
theorem build_comment_total_with_fallback_witness :
    build_comment "help with tantrum" none "Parenting" true false
        (Except.ok "") none =
      Except.ok (build_comment_try "help with tantrum" none "Parenting" none) ∧
    build_comment_try "help with tantrum" none "Parenting" none ≠ "" ∧
    build_comment "help with tantrum" none "Parenting" false true
        (Except.ok "NVIDIA_API_KEY=abc") (some "short tip") =
      Except.ok "short tip" := by
  obtain ⟨h1, h2, -⟩ :=
    build_comment_total_with_fallback "help with tantrum" none "Parenting"
      true false (Except.ok "") none (Or.inl rfl)
  obtain ⟨-, -, h3⟩ :=
    build_comment_total_with_fallback "help with tantrum" none "Parenting"
      false true (Except.ok "NVIDIA_API_KEY=abc") (some "short tip")
      (Or.inr (Or.inr ⟨"NVIDIA_API_KEY=abc", rfl⟩))
  exact ⟨h1, (h2 rfl).1, h3 "short tip" rfl⟩

/-- **C10.**  The live dedup guard fails open: a raised fetch, a non-200
status, or an unparseable body each make `already_commented_on_post` report
`False` ("not already commented"), and on a `False` guard the attempt loop
proceeds to compose and submit a comment for the target. -/
theorem dedup_guard_fails_open
    (st : Nat) (b : Option (List CommentJson)) (e : Env)
    (t : Candidate) (rest : List Candidate) :
    already_commented_on_post FetchOutcome.exn = false ∧
    (st ≠ 200 → already_commented_on_post (FetchOutcome.resp st b) = false) ∧
    already_commented_on_post (FetchOutcome.resp st none) = false ∧
    (e.alreadyCommented t.subreddit t.id = false →
      Effect.netSubmit t.subreddit t.id (composeFor e t)
        ∈ (attemptLoop false e (t :: rest)).effects) := by
  refine ⟨rfl, ?_, ?_, ?_⟩
  · intro h
    simp [already_commented_on_post, h]
  · by_cases h : st = 200 <;> simp [already_commented_on_post, h]
  · intro h
    by_cases h3 : e.postCode t.subreddit t.id = 200 <;>
      simp [attemptLoop, h, h3]

/-- Witness for C10: a concrete 500 response and a concrete environment in
which the guard is false and the loop indeed submits. -/
theorem dedup_guard_fails_open_witness :
    already_commented_on_post (FetchOutcome.resp 500 (some [])) = false ∧
    Effect.netSubmit "Parenting" "abc1" "that sounds rough. a calm routine usually helps."
      ∈ (attemptLoop false envA [candA]).effects := by
  obtain ⟨-, h2, -, h4⟩ :=
    dedup_guard_fails_open 500 (some []) envA candA []
  exact ⟨h2 (by decide), h4 (by rfl)⟩

/-- **C3.**  In dry-run mode the persisted state document is never written:
whatever the outcome (gate skip, API/login error, not enough posts, empty
pool, all-attempts failure, or simulated success), the effect trace of a
dry-run invocation contains no `save_json` write — the state file's bytes
(or its absence) are untouched, and all quota/ledger mutation stays in
memory. -/
theorem dry_run_never_writes_state (label : String) (e : Env) (s0 : RunState) :
    writtenState (runMain true label e s0).effects = none := by
  simp only [runMain]
  repeat' split
  all_goals
    simp_all [writtenState, stateProj, List.filterMap_append,
      attemptLoop_stateProj_free true e]

/-- **C6.**  For every non-dry-run invocation, a loaded state whose `status`
is not `"active"` makes the run return the skipped/state_not_active outcome
with an empty effect trace (no network call, no state write, no log write);
and since a missing or unparseable state file loads as the paused default,
such a run also returns skipped/state_not_active rather than crashing. -/
theorem inactive_state_skips (label : String) (e : Env) (s0 : RunState) :
    (s0.status ≠ "active" →
      (runMain false label e s0).status = "skipped" ∧
      (runMain false label e s0).reason = "state_not_active" ∧
      (runMain false label e s0).effects = []) ∧
    ((runMain false label e (load_json none defaultState)).status = "skipped" ∧
     (runMain false label e (load_json none defaultState)).reason = "state_not_active" ∧
     (runMain false label e (load_json none defaultState)).effects = []) := by
  have main : ∀ s1 : RunState, s1.status ≠ "active" →
      (runMain false label e s1).status = "skipped" ∧
      (runMain false label e s1).reason = "state_not_active" ∧
      (runMain false label e s1).effects = [] := by
    intro s1 h
    simp only [runMain]
    rw [if_pos ⟨trivial, h⟩]
    exact ⟨rfl, rfl, rfl⟩
  exact ⟨main s0, main (load_json none defaultState) (by decide)⟩

/-- Witness for C6: a concrete paused state is skipped without effects. -/
theorem inactive_state_skips_witness :
    (runMain false "w6" envA defaultState).status = "skipped" ∧
    (runMain false "w6" envA defaultState).reason = "state_not_active" ∧
    (runMain false "w6" envA defaultState).effects = [] :=
  (inactive_state_skips "w6" envA defaultState).1 (by decide)

/-- After `setdefault`, today's key is always present: it maps to the stored
bucket when one existed and to the fresh bucket otherwise. -/
theorem lookupDay_setdefault (d : List (String × DayQuota)) (k : String) (v : DayQuota) :
    lookupDay (setdefaultDay d k v) k = some ((lookupDay d k).getD v) := by
  unfold setdefaultDay
  cases h : lookupDay d k with
  | some q => simp [h]
  | none =>
    simp only [h, Option.getD_none]
    unfold lookupDay at h ⊢
    have hfind : d.find? (fun p => p.1 == k) = none := by
      cases hf : d.find? (fun p => p.1 == k) with
      | none => rfl
      | some p => rw [hf] at h; simp at h
    rw [List.find?_append, hfind]
    simp

/-- Updating today's bucket replaces its looked-up value. -/
theorem lookupDay_update (d : List (String × DayQuota)) (k : String) (v : DayQuota) :
    lookupDay (updateDay d k v) k = (lookupDay d k).map (fun _ => v) := by
  induction d with
  | nil => rfl
  | cons p rest ih =>
    show lookupDay ((if p.1 == k then (k, v) else p) :: updateDay rest k v) k = _
    by_cases h : p.1 == k
    · rw [if_pos h]
      simp [lookupDay, List.find?_cons, h]
    · rw [if_neg h]
      simpa [lookupDay, List.find?_cons, h] using ih

/-- Case analysis of one invocation of `main`: either the run leaves the
in-memory state at its gate value (`s0` with today's bucket `setdefault`ed)
and writes nothing to the state file, or it is a successful non-dry run:
the quota gate was passed, the posted target came from the shuffled pool,
today's `done` was incremented by exactly one, one session record whose key
is the target's (subreddit, id) pair was appended, and exactly that state was
written to the file. -/
theorem runMain_cases (dr : Bool) (label : String) (e : Env) (s0 : RunState) :
    ∀ r : RunResult, r = runMain dr label e s0 →
    (r.stateAfter = { s0 with daily := daily1Of e s0 } ∧
      writtenState r.effects = none) ∨
    (∃ (target : Candidate) (comment : String) (verified : Bool) (atts : List Attempt),
      dr = false ∧
      ¬ (dayOf e s0).target ≤ (dayOf e s0).done ∧
      (∃ observed rest, e.candidates = observed :: rest ∧
        target ∈ e.shuffle (selectPool observed rest s0.sessions_log)) ∧
      r.stateAfter =
        { status := s0.status,
          daily := updateDay (daily1Of e s0) e.today
            { target := (dayOf e s0).target, done := (dayOf e s0).done + 1 },
          sessions_log := s0.sessions_log ++
            [{ time := e.now, run := label,
               status := if verified then "ok" else "posted_unverified",
               subreddit := target.subreddit, post_id := target.id,
               comment := comment, attempts := atts }] } ∧
      writtenState r.effects = some r.stateAfter) := by
  intro r hr
  simp only [runMain] at hr
  repeat' split at hr
  all_goals subst hr
  all_goals
    try (left; exact ⟨rfl, by
      simp [writtenState, stateProj, List.filterMap_append,
        attemptLoop_stateProj_free]⟩)
  all_goals
    right
    rename_i hg1 hg2 hapi hlog hlen xcand obs rst hcand hmax xsucc tgt cmt vrf heq hdr hv
    have hdrf : dr = false := by simpa using hdr
    refine ⟨tgt, cmt, vrf,
      (attemptLoop dr e
        (List.take (3 ⊓ (e.shuffle (selectPool obs rst s0.sessions_log)).length)
          (e.shuffle (selectPool obs rst s0.sessions_log)))).attempts,
      hdrf, ?_, ⟨obs, rst, hcand,
      List.mem_of_mem_take (attemptLoop_success_mem dr e _ tgt cmt vrf heq)⟩, ?_, ?_⟩
    · intro hle
      exact hg2 ⟨hdrf, by simpa [dayOf, daily1Of, freshQuota] using hle⟩
    · simp [dayOf, daily1Of, freshQuota, hv]
    · simp [writtenState, stateProj, List.filterMap_append,
        attemptLoop_stateProj_free, dayOf, daily1Of, freshQuota, hv]

/-- Today's bucket after `setdefault`: the stored bucket if the date key was
present, else the fresh one. -/
theorem dayOf_eq (e : Env) (s0 : RunState) :
    dayOf e s0 = (lookupDay s0.daily e.today).getD (freshQuota e) := by
  unfold dayOf daily1Of
  rw [lookupDay_setdefault]
  rfl

/-- **C2.**  For the current date's quota bucket, every completed single run
preserves `done ≤ target`: (1) if `done ≤ target` holds for today's stored
bucket before the run (vacuously when no bucket exists yet, since a fresh
bucket has `done = 0` and `target = randint(4,8) ≥ 4`), it holds for today's
bucket in the state at the end of the run; (2) a non-dry run whose bucket
already has `done ≥ target` returns skipped/quota_reached with an empty
effect trace — no mutation. -/
theorem quota_preserved (dr : Bool) (label : String) (e : Env) (s0 : RunState)
    (htarget : 4 ≤ e.dayTarget) :
    ((∀ q, lookupDay s0.daily e.today = some q → q.done ≤ q.target) →
      ∀ q, lookupDay (runMain dr label e s0).stateAfter.daily e.today = some q →
        q.done ≤ q.target) ∧
    (dr = false → s0.status = "active" →
      (dayOf e s0).target ≤ (dayOf e s0).done →
      (runMain dr label e s0).status = "skipped" ∧
      (runMain dr label e s0).reason = "quota_reached" ∧
      (runMain dr label e s0).effects = []) := by
  constructor
  · intro hbefore q hq
    rcases runMain_cases dr label e s0 _ rfl with ⟨hst, -⟩ |
      ⟨t, c, v, atts, -, hgate, -, hst, -⟩
    · rw [hst] at hq
      dsimp only at hq
      rw [show daily1Of e s0 = setdefaultDay s0.daily e.today (freshQuota e) from rfl,
        lookupDay_setdefault] at hq
      have hq' : q = (lookupDay s0.daily e.today).getD (freshQuota e) :=
        (Option.some.inj hq).symm
      cases hlk : lookupDay s0.daily e.today with
      | none =>
        rw [hlk, Option.getD_none] at hq'
        rw [hq']
        show (0 : Int) ≤ e.dayTarget
        linarith
      | some q0 =>
        rw [hlk, Option.getD_some] at hq'
        rw [hq']
        exact hbefore q0 hlk
    · rw [hst] at hq
      dsimp only at hq
      rw [lookupDay_update] at hq
      rw [show daily1Of e s0 = setdefaultDay s0.daily e.today (freshQuota e) from rfl,
        lookupDay_setdefault] at hq
      simp only [Option.map_some'] at hq
      have hq' := (Option.some.inj hq).symm
      rw [hq']
      have hlt : (dayOf e s0).done < (dayOf e s0).target := lt_of_not_le hgate
      show (dayOf e s0).done + 1 ≤ (dayOf e s0).target
      omega
  · intro hdr hact hquota
    subst hdr
    simp only [runMain]
    rw [if_neg (fun h => h.2 hact)]
    rw [if_pos ⟨trivial, by simpa [dayOf, daily1Of, freshQuota] using hquota⟩]
    exact ⟨rfl, rfl, rfl⟩

/-- One run preserves distinctness of the dedup-ledger keys of the state
file: whatever the file holds after the run (the written state if `save_json`
ran, the unchanged previous content otherwise) has pairwise-distinct keys. -/
theorem runMain_ledger_step (dr : Bool) (label : String) (e : Env) (s0 : RunState)
    (hv : ValidEnv e)
    (hn : (ledgerKeys s0.sessions_log).Nodup) :
    (ledgerKeys ((writtenState (runMain dr label e s0).effects).getD s0).sessions_log).Nodup := by
  rcases runMain_cases dr label e s0 _ rfl with ⟨-, hw⟩ |
    ⟨t, c, v, atts, -, -, ⟨obs, rst, hcand, hmem⟩, hst, hw⟩
  · rw [hw]
    exact hn
  · rw [hw, Option.getD_some, hst]
    have hmem2 : t ∈ selectPool obs rst s0.sessions_log :=
      (hv.2 (selectPool obs rst s0.sessions_log)).mem_iff.mp hmem
    obtain ⟨hrst, hfilt⟩ := List.mem_filter.mp hmem2
    simp only [Bool.and_eq_true, Bool.not_eq_true'] at hfilt
    have hkey : candidateKey t ∉ ledgerKeys s0.sessions_log := by
      intro hmem3
      have helem := List.elem_iff.mpr hmem3
      rw [List.contains] at hfilt
      rw [helem] at hfilt
      exact Bool.true_eq_false.mp hfilt.2
    have hvalid : t.subreddit ≠ "" ∧ t.id ≠ "" :=
      hv.1 t (hcand ▸ List.mem_cons_of_mem obs hrst)
    have hreal : realRecord
        { time := e.now, run := label,
          status := if v then "ok" else "posted_unverified",
          subreddit := t.subreddit, post_id := t.id,
          comment := c, attempts := atts } = true := by
      simp [realRecord, hvalid.1, hvalid.2]
    dsimp only
    have happend : ledgerKeys (s0.sessions_log ++
        [{ time := e.now, run := label,
           status := if v then "ok" else "posted_unverified",
           subreddit := t.subreddit, post_id := t.id,
           comment := c, attempts := atts }]) =
        ledgerKeys s0.sessions_log ++ [candidateKey t] := by
      simp [ledgerKeys, List.filter_append, List.filter_cons, hreal, recordKey, candidateKey]
    rw [happend, List.nodup_append]
    refine ⟨hn, List.nodup_singleton _, ?_⟩
    intro a ha hb
    rw [List.mem_singleton] at hb
    exact hkey (hb ▸ ha)

/-- **C1.**  Across any sequence of non-overlapping runs sharing the same
state file, no two records of the resulting `sessions_log` share the same
(subreddit, post_id) pair — provided each run's candidates are valid
(`fetch_candidates` guarantees non-empty subreddit and id) and starting from
a file whose ledger keys are distinct (the default empty log qualifies):
each run filters out of its pool every candidate whose key is already
persisted and appends at most one record keyed by a pool member. -/
theorem dedup_ledger_invariant (inputs : List RunInput) (s0 : RunState)
    (hv : ∀ inp ∈ inputs, ValidEnv inp.env)
    (hn : (ledgerKeys s0.sessions_log).Nodup) :
    (ledgerKeys (runChain inputs s0).sessions_log).Nodup ∧
    ((runChain inputs s0).sessions_log.filter realRecord).Pairwise distinctPair := by
  have main : ∀ (ins : List RunInput) (s : RunState), (∀ inp ∈ ins, ValidEnv inp.env) →
      (ledgerKeys s.sessions_log).Nodup →
      (ledgerKeys (runChain ins s).sessions_log).Nodup := by
    intro ins
    induction ins with
    | nil => intro s _ h; exact h
    | cons inp rest ih =>
      intro s hvs hns
      exact ih _ (fun i hi => hvs i (List.mem_cons_of_mem _ hi))
        (runMain_ledger_step inp.dryRun inp.label inp.env s
          (hvs inp (List.mem_cons_self _ _)) hns)
  have h1 := main inputs s0 hv hn
  refine ⟨h1, ?_⟩
  have h2 : ((runChain inputs s0).sessions_log.filter realRecord).Pairwise
      (fun a b => recordKey a ≠ recordKey b) := List.pairwise_map.mp h1
  exact h2.imp (fun hne hpair =>
    hne (by rw [recordKey, recordKey, hpair.1, hpair.2]))

/-- Witness for C1: a single real run over a concrete valid environment,
starting from the empty ledger. -/
theorem dedup_ledger_invariant_witness :
    (ledgerKeys (runChain [⟨false, "w1", envA⟩] stateActive).sessions_log).Nodup ∧
    ((runChain [⟨false, "w1", envA⟩] stateActive).sessions_log.filter realRecord).Pairwise
      distinctPair := by
  apply dedup_ledger_invariant
  · intro inp hi
    rw [List.mem_singleton] at hi
    subst hi
    exact ⟨by decide, fun l => List.Perm.refl l⟩
  · decide

/-- Witness for C2: a fresh bucket after a successful run satisfies
`done ≤ target`, and a quota-full non-dry run skips with reason
quota_reached and no effects. -/
theorem quota_preserved_witness :
    (∀ q, lookupDay (runMain false "w2" envA stateActive).stateAfter.daily envA.today = some q →
      q.done ≤ q.target) ∧
    ((runMain false "w2q" envA stateQuotaFull).status = "skipped" ∧
     (runMain false "w2q" envA stateQuotaFull).reason = "quota_reached" ∧
     (runMain false "w2q" envA stateQuotaFull).effects = []) := by
  constructor
  · exact (quota_preserved false "w2" envA stateActive (by decide)).1
      (by intro q hq; simp [lookupDay, stateActive, List.find?] at hq)
  · exact (quota_preserved false "w2q" envA stateQuotaFull (by decide)).2 rfl rfl (by decide)

/-- **C7 counterexample.**  A run acquiring exactly 2 candidates does *not*
always select exactly 1 target: when the non-observed candidate's
(subreddit, id) already appears in the persisted dedup ledger it is excluded,
the pool is empty, and the run skips with no_new_posts_available (0 targets
selected). -/
theorem two_candidates_zero_targets :
    envA.candidates.length = 2 ∧
    selectPool candA [candB] stateLedgerB.sessions_log = [] ∧
    (runMain false "r7" envA stateLedgerB).status = "skipped" ∧
    (runMain false "r7" envA stateLedgerB).reason = "no_new_posts_available" := by
  decide

/-- **C7 (amended).**  For a run acquiring exactly 2 candidates, target
selection yields exactly 1 target — the candidate that is not the observed
(first) one — provided that candidate's id differs from the observed id
(which `fetch_candidates`' within-run dedup guarantees) and its
(subreddit, id) key is not already in the persisted ledger; otherwise the
pool is empty and the run skips.  The pool is the candidates after the
first, with the observed id and ledger-present keys excluded, shuffled,
capped at 3. -/
theorem two_candidates_one_target (e : Env) (c0 c1 : Candidate)
    (log : List PostedRecord)
    (hperm : ∀ l : List Candidate, List.Perm (e.shuffle l) l)
    (hid : c1.id ≠ c0.id)
    (hkey : candidateKey c1 ∉ ledgerKeys log) :
    e.shuffle (selectPool c0 [c1] log) = [c1] ∧
    (e.shuffle (selectPool c0 [c1] log)).take
      (3 ⊓ (e.shuffle (selectPool c0 [c1] log)).length) = [c1] := by
  have hpool : selectPool c0 [c1] log = [c1] := by
    simp [selectPool, hid, hkey]
  have hp := hperm (selectPool c0 [c1] log)
  rw [hpool] at hp
  have hshuffle : e.shuffle (selectPool c0 [c1] log) = [c1] := by
    rw [hpool]
    exact List.perm_singleton.mp hp
  refine ⟨hshuffle, ?_⟩
  rw [hshuffle]
  rfl

/-- Witness for C7 (amended) at concrete candidates with an empty ledger. -/
theorem two_candidates_one_target_witness :
    envA.shuffle (selectPool candA [candB] stateActive.sessions_log) = [candB] ∧
    (envA.shuffle (selectPool candA [candB] stateActive.sessions_log)).take
      (3 ⊓ (envA.shuffle (selectPool candA [candB] stateActive.sessions_log)).length) = [candB] :=
  two_candidates_one_target envA candA candB stateActive.sessions_log
    (fun l => List.Perm.refl l) (by decide) (by decide)

/-- When every target's dedup guard is clean and every submission returns a
non-200 code, the attempt loop succeeds on no target and issues exactly one
submission per target. -/
theorem attemptLoop_all_fail (e : Env) :
    ∀ l : List Candidate,
      (∀ t ∈ l, e.alreadyCommented t.subreddit t.id = false ∧
        e.postCode t.subreddit t.id ≠ 200) →
      (attemptLoop false e l).success = none ∧
      (submitsOf (attemptLoop false e l).effects).length = l.length := by
  intro l
  induction l with
  | nil => exact fun _ => ⟨rfl, rfl⟩
  | cons t rest ih =>
    intro h
    obtain ⟨h1, h3⟩ := h t (List.mem_cons_self t rest)
    have hr := ih (fun x hx => h x (List.mem_cons_of_mem t hx))
    simp only [attemptLoop, h1, Bool.false_eq_true, if_false, if_pos h3,
      submitsOf, List.filterMap_cons, submitProj]
    refine ⟨hr.1, ?_⟩
    simpa [submitsOf] using hr.2

/-- **C4.**  When every selected target's submission returns a non-success
code (and no target is skipped by the live dedup guard), the run ends with an
`error` outcome whose reason cites the number of attempts
(`post_failed_after_{n}_attempts` with `n = min(3, |pool|)`, the number of
selected targets, each submitted exactly once); a comment is still composed
for the first pooled target and written only to the audit log, never
submitted (the trace holds exactly the loop's `n` submissions); and neither
the `sessions_log` ledger nor today's `done` counter is written — the state
file is untouched and the in-memory state still equals the gate state. -/
theorem all_attempts_fail_error (label : String) (e : Env) (s0 : RunState)
    (observed : Candidate) (rest : List Candidate)
    (hcand : e.candidates = observed :: rest)
    (hact : s0.status = "active")
    (hquota : ¬ (dayOf e s0).target ≤ (dayOf e s0).done)
    (hapi : e.apiUp = true) (hlogin : e.loginOk = true)
    (hrest : rest ≠ [])
    (hpool : e.shuffle (selectPool observed rest s0.sessions_log) ≠ [])
    (hfail : ∀ t ∈ (e.shuffle (selectPool observed rest s0.sessions_log)).take
        (3 ⊓ (e.shuffle (selectPool observed rest s0.sessions_log)).length),
      e.alreadyCommented t.subreddit t.id = false ∧
        e.postCode t.subreddit t.id ≠ 200) :
    (runMain false label e s0).status = "error" ∧
    (runMain false label e s0).reason = "post_failed_after_" ++
      toString (3 ⊓ (e.shuffle (selectPool observed rest s0.sessions_log)).length) ++
      "_attempts" ∧
    (runMain false label e s0).stateAfter = { s0 with daily := daily1Of e s0 } ∧
    writtenState (runMain false label e s0).effects = none ∧
    (submitsOf (runMain false label e s0).effects).length =
      3 ⊓ (e.shuffle (selectPool observed rest s0.sessions_log)).length ∧
    loggedOf (runMain false label e s0).effects =
      [((e.shuffle (selectPool observed rest s0.sessions_log)).headD fallbackDefault,
        composeFor e
          ((e.shuffle (selectPool observed rest s0.sessions_log)).headD fallbackDefault))] := by
  have hloop := attemptLoop_all_fail e _ hfail
  have hlen2 : ¬ e.candidates.length < 2 := by
    rw [hcand]
    cases rest with
    | nil => exact absurd rfl hrest
    | cons b bs => simp [List.length_cons]
  have hmax : ¬ 3 ⊓ (e.shuffle (selectPool observed rest s0.sessions_log)).length = 0 := by
    have : (e.shuffle (selectPool observed rest s0.sessions_log)).length ≠ 0 :=
      fun h0 => hpool (List.length_eq_zero.mp h0)
    omega
  simp only [runMain]
  rw [if_neg (fun h => h.2 hact)]
  rw [if_neg (fun h => by
    exact hquota (by simpa [dayOf, daily1Of, freshQuota] using h.2))]
  rw [if_neg (by simp [hapi])]
  rw [if_neg (by simp [hlogin])]
  rw [if_neg hlen2]
  rw [hcand]
  simp only []
  rw [if_neg hmax]
  rw [hloop.1]
  refine ⟨rfl, rfl, rfl, ?_, ?_, ?_⟩
  · simp [writtenState, stateProj, List.filterMap_append,
      attemptLoop_stateProj_free, logProj]
  · simp only [submitsOf, List.filterMap_append]
    simp only [submitsOf] at hloop
    rw [List.length_append, List.length_append, hloop.2]
    simp [submitProj, List.length_take, Nat.min_comm]
  · simp [loggedOf, List.filterMap_append, attemptLoop_logProj_free, logProj]

/-- Witness for C4: with concrete candidates and every submission returning
HTTP 500, the run errors citing 1 attempt, writes no state, and submits
exactly once. -/
theorem all_attempts_fail_error_witness :
    (runMain false "w4" envFail stateActive).status = "error" ∧
    (runMain false "w4" envFail stateActive).reason = "post_failed_after_1_attempts" ∧
    writtenState (runMain false "w4" envFail stateActive).effects = none ∧
    (submitsOf (runMain false "w4" envFail stateActive).effects).length = 1 ∧
    loggedOf (runMain false "w4" envFail stateActive).effects =
      [(candB, composeFor envFail candB)] := by
  obtain ⟨h1, h2, h3, h4, h5, h6⟩ :=
    all_attempts_fail_error "w4" envFail stateActive candA [candB] rfl rfl
      (by decide) rfl rfl (by decide) (by decide) (by decide)
  refine ⟨h1, ?_, h4, ?_, ?_⟩
  · rw [h2]; decide
  · rw [h5]; decide
  · rw [h6]; decide
